import Mathlib

/-!
Shallow embedding of the BYAMN WorkHub wallet Ledger Engine
(`src/lib/data-cache.ts`): the wallet data model and the five
money-movement operations `updateWalletBalance`,
`createTransactionAndAdjustWallet`, `deductCampaignBudget`,
`approveWorkAndCredit` and `processMoneyRequest`.

Modelling conventions:
* JS numbers holding money amounts are modelled as `Int` (the code uses
  ordinary arithmetic with `Math.max(0, _)` clamping, no overflow logic).
* The Firebase realtime database is a record of finite-support maps from
  string keys to documents; `runTransaction` (single-path optimistic
  compare-and-swap) is modelled by its sequential semantics: the callback
  is applied to the current value, `undefined` (here `none`) means the
  transaction aborts with `committed = false` and no state change,
  otherwise the returned value is committed.
* `push` + `set` on `transactions/{uid}` (append a child under a fresh
  generated id) is modelled as appending to a list; the generated id is
  the position in the list.
* A thrown `Error(msg)` is modelled as `Except.error msg`; every throw in
  the five operations happens before any write, so an error carries no
  state change.
* The read cache is latency-only infrastructure, never consulted by any
  mutation decision, and is not modelled.
-/

namespace Byamn

/-- The `WalletBalance` interface of `data-cache.ts`. -/
structure WalletBalance where
  earnedBalance : Int
  addedBalance : Int
  pendingAddMoney : Int
  totalWithdrawn : Int
deriving Repr, DecidableEq

/-- The all-zero wallet used as default when `wallets/{uid}` is absent. -/
def zeroWallet : WalletBalance :=
  { earnedBalance := 0, addedBalance := 0, pendingAddMoney := 0, totalWithdrawn := 0 }

/-- `Partial<WalletBalance>`: each field optionally present. -/
structure WalletDelta where
  earnedBalance : Option Int := none
  addedBalance : Option Int := none
  pendingAddMoney : Option Int := none
  totalWithdrawn : Option Int := none
deriving Repr, DecidableEq

/-- JS object spread `{...current, ...updateValues}`: a present field of
the update replaces the current field. Used by `updateWalletBalance`. -/
def mergeWallet (cur : WalletBalance) (u : WalletDelta) : WalletBalance :=
  { earnedBalance := u.earnedBalance.getD cur.earnedBalance
    addedBalance := u.addedBalance.getD cur.addedBalance
    pendingAddMoney := u.pendingAddMoney.getD cur.pendingAddMoney
    totalWithdrawn := u.totalWithdrawn.getD cur.totalWithdrawn }

/-- The per-field additions of `createTransactionAndAdjustWallet`: each
field named in `walletUpdate` is added to the corresponding current
field; absent fields are untouched. -/
def addWalletDelta (cur : WalletBalance) (d : WalletDelta) : WalletBalance :=
  { earnedBalance :=
      match d.earnedBalance with
      | some v => cur.earnedBalance + v
      | none => cur.earnedBalance
    addedBalance :=
      match d.addedBalance with
      | some v => cur.addedBalance + v
      | none => cur.addedBalance
    pendingAddMoney :=
      match d.pendingAddMoney with
      | some v => cur.pendingAddMoney + v
      | none => cur.pendingAddMoney
    totalWithdrawn :=
      match d.totalWithdrawn with
      | some v => cur.totalWithdrawn + v
      | none => cur.totalWithdrawn }

/-- The four `Math.max(0, _)` clamps of `createTransactionAndAdjustWallet`
("Ensure no negative balances"). -/
def clampWallet (w : WalletBalance) : WalletBalance :=
  { earnedBalance := max 0 w.earnedBalance
    addedBalance := max 0 w.addedBalance
    pendingAddMoney := max 0 w.pendingAddMoney
    totalWithdrawn := max 0 w.totalWithdrawn }

/-- Campaign document at `campaigns/{campaignId}` (the fields read or
written by the Ledger Engine, plus pass-through fields). -/
structure Campaign where
  remainingBudget : Int
  totalBudget : Int
  creatorId : String
  status : String
  completedWorkers : Int
  totalWorkers : Int
deriving Repr, DecidableEq

/-- Work submission status. -/
inductive WorkStatus where
  | pending
  | approved
  | rejected
deriving Repr, DecidableEq

/-- Work document at `works/{userId}/{workId}`. -/
structure WorkRecord where
  userId : String
  campaignId : String
  status : WorkStatus
  reward : Int
  proofUrl : String
deriving Repr, DecidableEq

/-- Money-request status (`pending | approved | rejected`). -/
inductive ReqStatus where
  | pending
  | approved
  | rejected
deriving Repr, DecidableEq

/-- Money-request document under `adminRequests/addMoney` or
`adminRequests/withdrawals`. -/
structure MoneyRequest where
  userId : String
  amount : Int
  status : ReqStatus
deriving Repr, DecidableEq

/-- The `type` argument of `processMoneyRequest`. -/
inductive ReqType where
  | addMoney
  | withdrawal
deriving Repr, DecidableEq

/-- The `status` argument of `processMoneyRequest`. -/
inductive Resolution where
  | approved
  | rejected
deriving Repr, DecidableEq

/-- The resolution written onto the request record by the plain
`update(requestRef, { status })`. -/
def Resolution.toStatus : Resolution → ReqStatus
  | .approved => ReqStatus.approved
  | .rejected => ReqStatus.rejected

/-- User role from the `UserProfile` interface. -/
inductive UserRole where
  | user
  | admin
deriving Repr, DecidableEq

/-- User document at `users/{uid}` (authorization fields plus the
aggregate counters touched by the Ledger Engine). -/
structure UserProfile where
  role : UserRole
  isBlocked : Bool
  earnedMoney : Int
  approvedWorks : Int
  totalWithdrawn : Int
deriving Repr, DecidableEq

/-- An appended transaction record (the fields of the repo's
`Transaction` interface that the record payload carries; the Ledger
Engine stores the payload verbatim and never reads it back). -/
structure TxRecord where
  txType : String
  amount : Int
  status : String
  description : String
  createdAt : Int
deriving Repr, DecidableEq

/-- The document store state: one map per path namespace used by the
Ledger Engine (`users/`, `wallets/`, `campaigns/`, `works/{uid}/{workId}`,
`adminRequests/addMoney`, `adminRequests/withdrawals`,
`transactions/{uid}`). -/
structure DB where
  users : String → Option UserProfile
  wallets : String → Option WalletBalance
  campaigns : String → Option Campaign
  works : String → String → Option WorkRecord
  addMoneyRequests : String → Option MoneyRequest
  withdrawalRequests : String → Option MoneyRequest
  transactions : String → List TxRecord

/-- The empty store. -/
def emptyDB : DB :=
  { users := fun _ => none
    wallets := fun _ => none
    campaigns := fun _ => none
    works := fun _ _ => none
    addMoneyRequests := fun _ => none
    withdrawalRequests := fun _ => none
    transactions := fun _ => [] }

/-- Commit a value at `wallets/{uid}`. -/
def setWallet (db : DB) (uid : String) (w : WalletBalance) : DB :=
  { db with wallets := fun s => if s = uid then some w else db.wallets s }

/-- Commit a value at `campaigns/{campaignId}`. -/
def setCampaign (db : DB) (campaignId : String) (c : Campaign) : DB :=
  { db with campaigns := fun s => if s = campaignId then some c else db.campaigns s }

/-- Commit a value at `works/{userId}/{workId}`. -/
def setWork (db : DB) (userId workId : String) (w : WorkRecord) : DB :=
  { db with works := fun s t =>
      if s = userId ∧ t = workId then some w else db.works s t }

/-- Commit a value at `users/{uid}`. -/
def setUser (db : DB) (uid : String) (u : UserProfile) : DB :=
  { db with users := fun s => if s = uid then some u else db.users s }

/-- Commit a value under the request namespace selected by the type. -/
def setRequest (db : DB) (reqType : ReqType) (requestId : String) (r : MoneyRequest) : DB :=
  match reqType with
  | .addMoney =>
      { db with addMoneyRequests := fun s =>
          if s = requestId then some r else db.addMoneyRequests s }
  | .withdrawal =>
      { db with withdrawalRequests := fun s =>
          if s = requestId then some r else db.withdrawalRequests s }

/-- `push` + `set` on `transactions/{uid}`: append the record under a
fresh generated id (the position in the list). -/
def appendTransaction (db : DB) (uid : String) (t : TxRecord) : DB :=
  { db with transactions := fun s =>
      if s = uid then db.transactions s ++ [t] else db.transactions s }

/-- `verifyUserAuthorization` of `data-cache.ts`: for admin-gated calls
the acting user must be a non-blocked admin; otherwise the acting user
must equal the target or be a non-blocked admin. -/
def verifyUserAuthorization (db : DB) (currentUserId targetUserId : String)
    (requireAdmin : Bool) : Bool :=
  if requireAdmin then
    match db.users currentUserId with
    | some u => decide (u.role = UserRole.admin) && !u.isBlocked
    | none => false
  else if currentUserId = targetUserId then
    true
  else
    match db.users currentUserId with
    | some u => decide (u.role = UserRole.admin) && !u.isBlocked
    | none => false

/-- The guard `if (currentUserId && !(await verifyUserAuthorization(...)))`
prefixed to every Ledger Engine operation: with the acting id omitted
(`undefined`, here `none`) or the empty string (falsy in JS) no
authorization check happens at all. -/
def authFailed (db : DB) (currentUserId : Option String) (targetUserId : String)
    (requireAdmin : Bool) : Bool :=
  match currentUserId with
  | none => false
  | some c => decide (c ≠ "") && !(verifyUserAuthorization db c targetUserId requireAdmin)

/-- `updateWalletBalance`: compare-and-swap on `wallets/{uid}` applying
the caller's update function to the current wallet (all-zero default);
`none` from the update function aborts (result `null`), otherwise the
spread `{...currentBalance, ...updateValues}` is committed and returned.
No clamping is applied here. -/
def updateWalletBalance (db : DB) (uid : String)
    (updateFn : WalletBalance → Option WalletDelta)
    (currentUserId : Option String) :
    Except String (DB × Option WalletBalance) :=
  if authFailed db currentUserId uid false then
    .error "Unauthorized: You can only update your own wallet balance"
  else
    match updateFn ((db.wallets uid).getD zeroWallet) with
    | none => .ok (db, none)
    | some updateValues =>
        let nw := mergeWallet ((db.wallets uid).getD zeroWallet) updateValues
        .ok (setWallet db uid nw, some nw)

/-- The wallet leg of `createTransactionAndAdjustWallet`: a
compare-and-swap whose callback adds each named delta to the current
wallet (all-zero default) and clamps every one of the four fields to a
minimum of zero. The callback never aborts. -/
def walletAdjustCas (db : DB) (uid : String) (walletUpdate : WalletDelta) : DB :=
  setWallet db uid (clampWallet (addWalletDelta ((db.wallets uid).getD zeroWallet) walletUpdate))

/-- `createTransactionAndAdjustWallet`: first appends the transaction
record at `transactions/{uid}` under a generated id, then runs the
clamping wallet compare-and-swap. Neither write rolls the other back. -/
def createTransactionAndAdjustWallet (db : DB) (uid : String) (txn : TxRecord)
    (walletUpdate : WalletDelta) (currentUserId : Option String) :
    Except String DB :=
  if authFailed db currentUserId uid false then
    .error "Unauthorized: You can only update your own wallet"
  else
    .ok (walletAdjustCas (appendTransaction db uid txn) uid walletUpdate)

/-- The wallet leg of `deductCampaignBudget`, run on the state `db1` in
which the campaign deduction has already committed (`newCampaign` being
the committed post-deduction campaign snapshot): compare-and-swap
`addedBalance -= amount` on the creator's wallet, aborting if
`addedBalance < amount`; on abort, roll the campaign budget back with a
plain update writing the post-deduction snapshot value plus `amount`. -/
def deductWalletLeg (db1 : DB) (campaignId : String) (amount : Int) (uid : String)
    (newCampaign : Campaign) : DB × Bool :=
  if ((db1.wallets uid).getD zeroWallet).addedBalance < amount then
    -- wallet CAS aborted: rollback campaign budget by plain update
    (setCampaign db1 campaignId
      { newCampaign with remainingBudget := newCampaign.remainingBudget + amount }, false)
  else
    (setWallet db1 uid
      { (db1.wallets uid).getD zeroWallet with
        addedBalance := ((db1.wallets uid).getD zeroWallet).addedBalance - amount }, true)

/-- `deductCampaignBudget`: authorize, check existence and ownership of
the campaign, compare-and-swap `remainingBudget -= amount` on the
campaign (abort if `remainingBudget < amount`), then compare-and-swap
`addedBalance -= amount` on the creator's wallet (abort if
`addedBalance < amount`); if the wallet leg does not commit, compensate
with a plain update writing back the post-deduction budget plus
`amount`, and return `false`. -/
def deductCampaignBudget (db : DB) (campaignId : String) (amount : Int) (uid : String)
    (currentUserId : Option String) :
    Except String (DB × Bool) :=
  if authFailed db currentUserId uid false then
    .error "Unauthorized: You can only deduct from your own campaigns"
  else
    match db.campaigns campaignId with
    | none => .error "Campaign does not exist"
    | some campaignData =>
      if campaignData.creatorId ≠ uid then
        .error "Unauthorized: You can only deduct from your own campaigns"
      else if campaignData.remainingBudget < amount then
        -- campaign CAS aborted: committed = false, nothing mutated
        .ok (db, false)
      else
        -- campaign CAS committed, then the wallet leg
        .ok (deductWalletLeg
              (setCampaign db campaignId
                { campaignData with
                  remainingBudget := campaignData.remainingBudget - amount })
              campaignId amount uid
              { campaignData with
                remainingBudget := campaignData.remainingBudget - amount })

/-- The wallet leg of `approveWorkAndCredit`: unconditionally credit
`reward` onto the worker's `earnedBalance` (the CAS callback has no
abort condition). -/
def approveCreditLeg (db1 : DB) (userId : String) (reward : Int) : DB :=
  setWallet db1 userId
    { (db1.wallets userId).getD zeroWallet with
      earnedBalance := ((db1.wallets userId).getD zeroWallet).earnedBalance + reward }

/-- The best-effort profile-aggregate update of `approveWorkAndCredit`:
bump `earnedMoney` and `approvedWorks` on `users/{userId}` if the user
document exists, then return success. -/
def bumpApprovedAggregates (db2 : DB) (userId : String) (reward : Int) : DB × Bool :=
  match db2.users userId with
  | some userData =>
      (setUser db2 userId
        { userData with
          earnedMoney := userData.earnedMoney + reward
          approvedWorks := userData.approvedWorks + 1 }, true)
  | none => (db2, true)

/-- `approveWorkAndCredit`: admin-gated; throws unless the work exists
and is `pending`; compare-and-swap `status := approved` on the work,
then unconditionally credit `reward` onto the worker's
`earnedBalance`; on wallet commit, best-effort bump the user profile's
`earnedMoney`/`approvedWorks` aggregates. In the sequential semantics
the two CAS legs cannot fail after the pre-checks, so the rollback
branch (`status` back to `pending`) is unreachable here. -/
def approveWorkAndCredit (db : DB) (workId userId campaignId : String) (reward : Int)
    (currentAdminId : Option String) :
    Except String (DB × Bool) :=
  if authFailed db currentAdminId userId true then
    .error "Unauthorized: Only admins can approve work"
  else
    match db.works userId workId with
    | none => .error "Work does not exist"
    | some workData =>
      if workData.status ≠ WorkStatus.pending then
        .error "Work is not in pending status"
      else
        .ok (bumpApprovedAggregates
              (approveCreditLeg
                (setWork db userId workId { workData with status := WorkStatus.approved })
                userId reward)
              userId reward)

/-- The add-money wallet leg of `processMoneyRequest`: unconditional
compare-and-swap committing `addedBalance += amount`,
`pendingAddMoney = max(0, pendingAddMoney - amount)`. -/
def addMoneyLeg (db1 : DB) (userId : String) (amount : Int) : DB :=
  setWallet db1 userId
    { (db1.wallets userId).getD zeroWallet with
      addedBalance := ((db1.wallets userId).getD zeroWallet).addedBalance + amount
      pendingAddMoney :=
        max 0 (((db1.wallets userId).getD zeroWallet).pendingAddMoney - amount) }

/-- The best-effort profile-aggregate update of the withdrawal path:
bump `totalWithdrawn` on `users/{userId}` if the user document exists. -/
def bumpWithdrawAggregate (db2 : DB) (userId : String) (amount : Int) : DB :=
  match db2.users userId with
  | some userData =>
      setUser db2 userId
        { userData with totalWithdrawn := userData.totalWithdrawn + amount }
  | none => db2

/-- The withdrawal wallet leg of `processMoneyRequest`, run on the state
`db1` in which the request status has already been set to `approved`:
compare-and-swap aborting if `earnedBalance < amount` (in which case the
request status is reverted to `pending` and the leg reports `false`),
otherwise committing `earnedBalance -= amount`,
`totalWithdrawn += amount` and bumping the profile aggregate. -/
def withdrawalLeg (db1 : DB) (requestId userId : String) (amount : Int)
    (requestData : MoneyRequest) : DB × Bool :=
  if ((db1.wallets userId).getD zeroWallet).earnedBalance < amount then
    -- wallet CAS aborted: revert request status to pending
    (setRequest db1 ReqType.withdrawal requestId
      { requestData with status := ReqStatus.pending }, false)
  else
    (bumpWithdrawAggregate
      (setWallet db1 userId
        { (db1.wallets userId).getD zeroWallet with
          earnedBalance := ((db1.wallets userId).getD zeroWallet).earnedBalance - amount
          totalWithdrawn :=
            ((db1.wallets userId).getD zeroWallet).totalWithdrawn + amount })
      userId amount, true)

/-- `processMoneyRequest`: admin-gated; throws unless the request exists
and is `pending`; writes the resolution onto the request by a plain
update. For a rejected request that is all. For an approved add-money
request the wallet CAS unconditionally commits
`addedBalance += amount`, `pendingAddMoney = max(0, pendingAddMoney -
amount)`. For an approved withdrawal the wallet CAS aborts if
`earnedBalance < amount`, in which case the request status is reverted
to `pending` and the call returns `false`; otherwise it commits
`earnedBalance -= amount`, `totalWithdrawn += amount` and best-effort
bumps the profile's `totalWithdrawn` aggregate.

In the source the plain `update(requestRef, { status })` precedes the
branch on the resolution; here the (equal-effect) status write is pushed
into each resolution branch so that the written status appears as a
literal. -/
def processMoneyRequest (db : DB) (requestId : String) (reqType : ReqType)
    (userId : String) (amount : Int) (resolution : Resolution)
    (currentAdminId : Option String) :
    Except String (DB × Bool) :=
  if authFailed db currentAdminId userId true then
    .error "Unauthorized: Only admins can process money requests"
  else
    match (match reqType with
           | ReqType.addMoney => db.addMoneyRequests requestId
           | ReqType.withdrawal => db.withdrawalRequests requestId) with
    | none => .error "Request does not exist"
    | some requestData =>
      if requestData.status ≠ ReqStatus.pending then
        .error "Request is not in pending status"
      else
        match resolution with
        | Resolution.rejected =>
            .ok (setRequest db reqType requestId
                  { requestData with status := ReqStatus.rejected }, true)
        | Resolution.approved =>
          match reqType with
          | ReqType.addMoney =>
              .ok (addMoneyLeg
                    (setRequest db ReqType.addMoney requestId
                      { requestData with status := ReqStatus.approved })
                    userId amount, true)
          | ReqType.withdrawal =>
              .ok (withdrawalLeg
                    (setRequest db ReqType.withdrawal requestId
                      { requestData with status := ReqStatus.approved })
                    requestId userId amount requestData)

/-- One Ledger Engine invocation, tagged with all call arguments. -/
inductive LedgerOp where
  | updateWallet (uid : String) (updateFn : WalletBalance → Option WalletDelta)
      (currentUserId : Option String)
  | createTx (uid : String) (txn : TxRecord) (walletUpdate : WalletDelta)
      (currentUserId : Option String)
  | deduct (campaignId : String) (amount : Int) (uid : String)
      (currentUserId : Option String)
  | approve (workId userId campaignId : String) (reward : Int)
      (currentAdminId : Option String)
  | processReq (requestId : String) (reqType : ReqType) (userId : String)
      (amount : Int) (resolution : Resolution) (currentAdminId : Option String)

/-- Apply one operation to the store. A thrown error leaves the store as
it was (every throw in the five operations happens before any write). -/
def runOp (db : DB) (op : LedgerOp) : DB :=
  match op with
  | .updateWallet uid f cu =>
      match updateWalletBalance db uid f cu with
      | .ok (db', _) => db'
      | .error _ => db
  | .createTx uid t wu cu =>
      match createTransactionAndAdjustWallet db uid t wu cu with
      | .ok db' => db'
      | .error _ => db
  | .deduct cid a uid cu =>
      match deductCampaignBudget db cid a uid cu with
      | .ok (db', _) => db'
      | .error _ => db
  | .approve wid uid cid r cu =>
      match approveWorkAndCredit db wid uid cid r cu with
      | .ok (db', _) => db'
      | .error _ => db
  | .processReq rid ty uid a res cu =>
      match processMoneyRequest db rid ty uid a res cu with
      | .ok (db', _) => db'
      | .error _ => db

/-- Apply a sequence of operations left to right. -/
def runOps (db : DB) (ops : List LedgerOp) : DB := ops.foldl runOp db

/-- All four wallet fields are non-negative. -/
def WalletNonneg (w : WalletBalance) : Prop :=
  0 ≤ w.earnedBalance ∧ 0 ≤ w.addedBalance ∧ 0 ≤ w.pendingAddMoney ∧ 0 ≤ w.totalWithdrawn

instance (w : WalletBalance) : Decidable (WalletNonneg w) := by
  unfold WalletNonneg; infer_instance

/-- Every committed wallet snapshot in the store is non-negative. -/
def AllWalletsNonneg (db : DB) : Prop :=
  ∀ uid w, db.wallets uid = some w → WalletNonneg w

/-- An update function preserves committed non-negativity: whenever it
returns a delta on a non-negative wallet, the merged result is again
non-negative. -/
def PreservesNonneg (f : WalletBalance → Option WalletDelta) : Prop :=
  ∀ w, WalletNonneg w → ∀ d, f w = some d → WalletNonneg (mergeWallet w d)

/-- Operation arguments under which the wallet non-negativity invariant
is preserved: `updateWalletBalance` requires its (unclamped) update
function to preserve non-negativity, crediting operations require
non-negative amounts; `createTransactionAndAdjustWallet` (which clamps)
and `deductCampaignBudget` (whose wallet leg is guarded) are
unrestricted. -/
def GoodOp : LedgerOp → Prop
  | .updateWallet _ f _ => PreservesNonneg f
  | .createTx _ _ _ _ => True
  | .deduct _ _ _ _ => True
  | .approve _ _ _ r _ => 0 ≤ r
  | .processReq _ _ _ a _ _ => 0 ≤ a

/-! ### Concrete fixtures used by counterexamples and witnesses -/

/-- A non-blocked admin profile. -/
def adminU : UserProfile :=
  { role := UserRole.admin, isBlocked := false, earnedMoney := 0, approvedWorks := 0,
    totalWithdrawn := 0 }

/-- A sample transaction-record payload. -/
def txA : TxRecord :=
  { txType := "earning", amount := 25, status := "paid", description := "reward",
    createdAt := 1 }

/-- A pending work submission for user `u1`. -/
def workPendingC1 : WorkRecord :=
  { userId := "u1", campaignId := "c1", status := WorkStatus.pending, reward := 5,
    proofUrl := "" }

/-- Store with an all-zero wallet for `u1` and a pending work `w1`. -/
def dbC1 : DB :=
  { emptyDB with
    wallets := fun s => if s = "u1" then some zeroWallet else none
    works := fun s t => if s = "u1" ∧ t = "w1" then some workPendingC1 else none }

/-- Scenario B/C campaign: budget 1000, owned by `u1`. -/
def campB : Campaign :=
  { remainingBudget := 1000, totalBudget := 1000, creatorId := "u1", status := "active",
    completedWorkers := 0, totalWorkers := 10 }

/-- Scenario B wallet: `addedBalance` 800. -/
def walB : WalletBalance :=
  { earnedBalance := 100, addedBalance := 800, pendingAddMoney := 0, totalWithdrawn := 50 }

/-- Store holding `campB` at `c1` and `walB` at `u1`. -/
def dbB : DB :=
  { emptyDB with
    campaigns := fun s => if s = "c1" then some campB else none
    wallets := fun s => if s = "u1" then some walB else none }

/-- A pending work submission for user `u5`. -/
def workP : WorkRecord :=
  { userId := "u5", campaignId := "c5", status := WorkStatus.pending, reward := 100,
    proofUrl := "p" }

/-- Store with pending work `w5` and an all-zero wallet for `u5`. -/
def dbP : DB :=
  { emptyDB with
    works := fun s t => if s = "u5" ∧ t = "w5" then some workP else none
    wallets := fun s => if s = "u5" then some zeroWallet else none }

/-- Scenario E wallet: `addedBalance` 200, `pendingAddMoney` 50. -/
def walE : WalletBalance :=
  { earnedBalance := 0, addedBalance := 200, pendingAddMoney := 50, totalWithdrawn := 0 }

/-- Scenario E pending add-money request. -/
def reqE : MoneyRequest :=
  { userId := "u6", amount := 500, status := ReqStatus.pending }

/-- Store holding `walE` at `u6` and `reqE` at `r6`. -/
def dbE : DB :=
  { emptyDB with
    wallets := fun s => if s = "u6" then some walE else none
    addMoneyRequests := fun s => if s = "r6" then some reqE else none }

/-- Scenario D wallet: `earnedBalance` 200. -/
def walD : WalletBalance :=
  { earnedBalance := 200, addedBalance := 300, pendingAddMoney := 0, totalWithdrawn := 50 }

/-- Scenario D pending withdrawal request. -/
def reqD : MoneyRequest :=
  { userId := "u7", amount := 500, status := ReqStatus.pending }

/-- Store holding `walD` at `u7` and `reqD` at `r7`. -/
def dbD : DB :=
  { emptyDB with
    wallets := fun s => if s = "u7" then some walD else none
    withdrawalRequests := fun s => if s = "r7" then some reqD else none }

/-- A transaction payload for the paired-write scenario. -/
def txW : TxRecord :=
  { txType := "withdrawal", amount := 50, status := "pending",
    description := "Withdrawal request", createdAt := 2 }

/-- A delta that is a logical no-op after clamping on an all-zero wallet. -/
def wuW8 : WalletDelta := { earnedBalance := some (-50) }

/-- Store with an all-zero wallet for `u8`. -/
def dbW8 : DB :=
  { emptyDB with wallets := fun s => if s = "u8" then some zeroWallet else none }

/-- An already-approved work submission for user `u9`. -/
def workApprovedC9 : WorkRecord :=
  { userId := "u9", campaignId := "c9", status := WorkStatus.approved, reward := 10,
    proofUrl := "" }

/-- An already-approved add-money request. -/
def reqApprovedC9 : MoneyRequest :=
  { userId := "u9", amount := 100, status := ReqStatus.approved }

/-- Store with an approved work `w9` and an approved request `r9`. -/
def dbC9 : DB :=
  { emptyDB with
    works := fun s t => if s = "u9" ∧ t = "w9" then some workApprovedC9 else none
    addMoneyRequests := fun s => if s = "r9" then some reqApprovedC9 else none }

/-- Store with an admin user `a` (for the authorization witnesses). -/
def dbAuth : DB :=
  { emptyDB with users := fun s => if s = "a" then some adminU else none }

theorem walletNonneg_mk {a b c d : Int}
    (h1 : 0 ≤ a) (h2 : 0 ≤ b) (h3 : 0 ≤ c) (h4 : 0 ≤ d) :
    WalletNonneg
      { earnedBalance := a, addedBalance := b, pendingAddMoney := c, totalWithdrawn := d } :=
  ⟨h1, h2, h3, h4⟩

theorem zeroWallet_nonneg : WalletNonneg zeroWallet := by
  refine ⟨?_, ?_, ?_, ?_⟩ <;> simp [zeroWallet]

theorem clampWallet_nonneg (w : WalletBalance) : WalletNonneg (clampWallet w) := by
  refine ⟨?_, ?_, ?_, ?_⟩ <;> simp [clampWallet]

theorem walletOrZero_nonneg (db : DB) (uid : String) (h : AllWalletsNonneg db) :
    WalletNonneg ((db.wallets uid).getD zeroWallet) := by
  cases hw : db.wallets uid with
  | none => simpa using zeroWallet_nonneg
  | some w => simpa using h uid w hw

theorem allNonneg_setWallet {db : DB} {uid : String} {w : WalletBalance}
    (h : AllWalletsNonneg db) (hw : WalletNonneg w) :
    AllWalletsNonneg (setWallet db uid w) := by
  intro uid' w' h'
  by_cases he : uid' = uid
  · subst he
    simp [setWallet] at h'
    exact h' ▸ hw
  · simp [setWallet, he] at h'
    exact h uid' w' h'

theorem allNonneg_of_wallets_eq {db db' : DB}
    (h : db'.wallets = db.wallets) (ha : AllWalletsNonneg db) :
    AllWalletsNonneg db' := by
  intro uid w hw
  exact ha uid w (h ▸ hw)


theorem updateWalletBalance_nonneg {db : DB} {uid : String}
    {f : WalletBalance → Option WalletDelta} {cu : Option String}
    (ha : AllWalletsNonneg db) (hf : PreservesNonneg f) :
    ∀ db' r, updateWalletBalance db uid f cu = Except.ok (db', r) → AllWalletsNonneg db' := by
  intro db' r h
  unfold updateWalletBalance at h
  by_cases hauth : authFailed db cu uid false = true
  · rw [if_pos hauth] at h
    exact absurd h (by simp)
  · rw [if_neg hauth] at h
    cases hfc : f ((db.wallets uid).getD zeroWallet) with
    | none =>
        rw [hfc] at h
        simp only [Except.ok.injEq, Prod.mk.injEq] at h
        exact h.1 ▸ ha
    | some u =>
        rw [hfc] at h
        simp only [Except.ok.injEq, Prod.mk.injEq] at h
        exact h.1 ▸ allNonneg_setWallet ha
          (hf _ (walletOrZero_nonneg db uid ha) u hfc)

theorem createTransactionAndAdjustWallet_nonneg {db : DB} {uid : String}
    {txn : TxRecord} {wu : WalletDelta} {cu : Option String}
    (ha : AllWalletsNonneg db) :
    ∀ db', createTransactionAndAdjustWallet db uid txn wu cu = Except.ok db' →
      AllWalletsNonneg db' := by
  intro db' h
  unfold createTransactionAndAdjustWallet at h
  by_cases hauth : authFailed db cu uid false = true
  · rw [if_pos hauth] at h
    exact absurd h (by simp)
  · rw [if_neg hauth] at h
    simp only [Except.ok.injEq] at h
    subst h
    exact allNonneg_setWallet
      (@allNonneg_of_wallets_eq db (appendTransaction db uid txn) rfl ha)
      (clampWallet_nonneg _)

theorem setCampaign_wallets (db : DB) (cid : String) (c : Campaign) :
    (setCampaign db cid c).wallets = db.wallets := rfl

theorem setRequest_wallets (db : DB) (ty : ReqType) (rid : String) (r : MoneyRequest) :
    (setRequest db ty rid r).wallets = db.wallets := by
  cases ty <;> rfl

theorem bumpApprovedAggregates_wallets (db2 : DB) (uid : String) (r : Int) :
    (bumpApprovedAggregates db2 uid r).1.wallets = db2.wallets := by
  unfold bumpApprovedAggregates
  cases db2.users uid <;> rfl

theorem bumpWithdrawAggregate_wallets (db2 : DB) (uid : String) (a : Int) :
    (bumpWithdrawAggregate db2 uid a).wallets = db2.wallets := by
  unfold bumpWithdrawAggregate
  cases db2.users uid <;> rfl

theorem deductWalletLeg_nonneg {db1 : DB} {cid : String} {amount : Int}
    {uid : String} {nc : Campaign} (ha : AllWalletsNonneg db1) :
    AllWalletsNonneg (deductWalletLeg db1 cid amount uid nc).1 := by
  unfold deductWalletLeg
  split
  · exact allNonneg_of_wallets_eq rfl ha
  · rename_i hbal
    simp only [not_lt] at hbal
    have hcb := walletOrZero_nonneg db1 uid ha
    exact allNonneg_setWallet ha
      (walletNonneg_mk hcb.1 (by omega) hcb.2.2.1 hcb.2.2.2)

theorem deductCampaignBudget_nonneg {db : DB} {cid : String} {amount : Int}
    {uid : String} {cu : Option String} (ha : AllWalletsNonneg db) :
    ∀ db' r, deductCampaignBudget db cid amount uid cu = Except.ok (db', r) →
      AllWalletsNonneg db' := by
  intro db' r h
  unfold deductCampaignBudget at h
  split at h
  · exact absurd h (by simp)
  split at h
  · exact absurd h (by simp)
  split at h
  · exact absurd h (by simp)
  split at h
  · simp only [Except.ok.injEq, Prod.mk.injEq] at h
    exact h.1 ▸ ha
  · simp only [Except.ok.injEq, Prod.ext_iff] at h
    exact h.1 ▸ deductWalletLeg_nonneg (allNonneg_of_wallets_eq rfl ha)

theorem approveCreditLeg_nonneg {db1 : DB} {uid : String} {reward : Int}
    (ha : AllWalletsNonneg db1) (hr : 0 ≤ reward) :
    AllWalletsNonneg (approveCreditLeg db1 uid reward) := by
  unfold approveCreditLeg
  have hcb := walletOrZero_nonneg db1 uid ha
  exact allNonneg_setWallet ha
    (walletNonneg_mk (by have := hcb.1; omega) hcb.2.1 hcb.2.2.1 hcb.2.2.2)

theorem approveWorkAndCredit_nonneg {db : DB} {wid uid cid : String}
    {reward : Int} {cu : Option String}
    (ha : AllWalletsNonneg db) (hr : 0 ≤ reward) :
    ∀ db' r, approveWorkAndCredit db wid uid cid reward cu = Except.ok (db', r) →
      AllWalletsNonneg db' := by
  intro db' r h
  unfold approveWorkAndCredit at h
  split at h
  · exact absurd h (by simp)
  split at h
  · exact absurd h (by simp)
  split at h
  · exact absurd h (by simp)
  · simp only [Except.ok.injEq, Prod.ext_iff] at h
    exact h.1 ▸
      allNonneg_of_wallets_eq (bumpApprovedAggregates_wallets _ _ _)
        (approveCreditLeg_nonneg (allNonneg_of_wallets_eq rfl ha) hr)

theorem addMoneyLeg_nonneg {db1 : DB} {uid : String} {amount : Int}
    (ha : AllWalletsNonneg db1) (hamt : 0 ≤ amount) :
    AllWalletsNonneg (addMoneyLeg db1 uid amount) := by
  unfold addMoneyLeg
  have hcb := walletOrZero_nonneg db1 uid ha
  exact allNonneg_setWallet ha
    (walletNonneg_mk hcb.1 (by have := hcb.2.1; omega) (le_max_left 0 _) hcb.2.2.2)

theorem withdrawalLeg_nonneg {db1 : DB} {rid uid : String} {amount : Int}
    {req : MoneyRequest} (ha : AllWalletsNonneg db1) (hamt : 0 ≤ amount) :
    AllWalletsNonneg (withdrawalLeg db1 rid uid amount req).1 := by
  unfold withdrawalLeg
  split
  · exact allNonneg_of_wallets_eq (setRequest_wallets _ _ _ _) ha
  · rename_i hbal
    simp only [not_lt] at hbal
    have hcb := walletOrZero_nonneg db1 uid ha
    exact allNonneg_of_wallets_eq (bumpWithdrawAggregate_wallets _ _ _)
      (allNonneg_setWallet ha
        (walletNonneg_mk (by omega) hcb.2.1 hcb.2.2.1
          (by have := hcb.2.2.2; omega)))

theorem processMoneyRequest_nonneg {db : DB} {rid : String} {ty : ReqType}
    {uid : String} {amount : Int} {res : Resolution} {cu : Option String}
    (ha : AllWalletsNonneg db) (hamt : 0 ≤ amount) :
    ∀ db' r, processMoneyRequest db rid ty uid amount res cu = Except.ok (db', r) →
      AllWalletsNonneg db' := by
  intro db' r h
  unfold processMoneyRequest at h
  split at h
  · exact absurd h (by simp)
  split at h
  · exact absurd h (by simp)
  split at h
  · exact absurd h (by simp)
  split at h
  · -- rejected: only the request status is written
    simp only [Except.ok.injEq, Prod.mk.injEq] at h
    exact h.1 ▸ allNonneg_of_wallets_eq (setRequest_wallets _ _ _ _) ha
  · -- approved: branch on the request type
    split at h
    · simp only [Except.ok.injEq, Prod.mk.injEq] at h
      exact h.1 ▸
        addMoneyLeg_nonneg (allNonneg_of_wallets_eq (setRequest_wallets _ _ _ _) ha) hamt
    · simp only [Except.ok.injEq, Prod.ext_iff] at h
      exact h.1 ▸
        withdrawalLeg_nonneg (allNonneg_of_wallets_eq (setRequest_wallets _ _ _ _) ha) hamt

theorem runOp_nonneg {db : DB} {op : LedgerOp}
    (ha : AllWalletsNonneg db) (hg : GoodOp op) :
    AllWalletsNonneg (runOp db op) := by
  cases op with
  | updateWallet uid f cu =>
      simp only [runOp]
      cases h : updateWalletBalance db uid f cu with
      | ok p =>
          cases p with
          | mk db' r => exact updateWalletBalance_nonneg ha hg db' r h
      | error e => exact ha
  | createTx uid t wu cu =>
      simp only [runOp]
      cases h : createTransactionAndAdjustWallet db uid t wu cu with
      | ok db' => exact createTransactionAndAdjustWallet_nonneg ha db' h
      | error e => exact ha
  | deduct cid a uid cu =>
      simp only [runOp]
      cases h : deductCampaignBudget db cid a uid cu with
      | ok p =>
          cases p with
          | mk db' r => exact deductCampaignBudget_nonneg ha db' r h
      | error e => exact ha
  | approve wid uid cid r cu =>
      simp only [runOp]
      cases h : approveWorkAndCredit db wid uid cid r cu with
      | ok p =>
          cases p with
          | mk db' r' => exact approveWorkAndCredit_nonneg ha hg db' r' h
      | error e => exact ha
  | processReq rid ty uid a res cu =>
      simp only [runOp]
      cases h : processMoneyRequest db rid ty uid a res cu with
      | ok p =>
          cases p with
          | mk db' r' => exact processMoneyRequest_nonneg ha hg db' r' h
      | error e => exact ha

theorem runOps_nonneg {db : DB} {ops : List LedgerOp}
    (ha : AllWalletsNonneg db) (hg : ∀ op ∈ ops, GoodOp op) :
    AllWalletsNonneg (runOps db ops) := by
  induction ops generalizing db with
  | nil => exact ha
  | cons op rest ih =>
      exact ih (runOp_nonneg ha (hg op (by simp)))
        (fun o ho => hg o (by simp [ho]))

/-! ### Claim theorems -/

/-- C2: if the campaign exists, belongs to `uid`, has
`remainingBudget ≥ amount`, and the creator's wallet has
`addedBalance ≥ amount`, then `deductCampaignBudget` commits
`remainingBudget -= amount` on the campaign and
`addedBalance -= amount` on the wallet and returns `true`. -/
theorem deduct_sufficient_commits (db : DB) (campaignId : String) (amount : Int)
    (uid : String) (cu : Option String) (camp : Campaign)
    (hauth : authFailed db cu uid false = false)
    (hc : db.campaigns campaignId = some camp)
    (howner : camp.creatorId = uid)
    (hbudget : amount ≤ camp.remainingBudget)
    (hbal : amount ≤ ((db.wallets uid).getD zeroWallet).addedBalance) :
    ∃ db', deductCampaignBudget db campaignId amount uid cu = Except.ok (db', true)
      ∧ db'.campaigns campaignId =
          some { camp with remainingBudget := camp.remainingBudget - amount }
      ∧ db'.wallets uid =
          some { (db.wallets uid).getD zeroWallet with
                 addedBalance := ((db.wallets uid).getD zeroWallet).addedBalance - amount } := by
  have hb1 : ¬ camp.remainingBudget < amount := not_lt.mpr hbudget
  have hb2 : ¬ ((db.wallets uid).getD zeroWallet).addedBalance < amount := not_lt.mpr hbal
  refine ⟨setWallet (setCampaign db campaignId
      { camp with remainingBudget := camp.remainingBudget - amount }) uid
      { (db.wallets uid).getD zeroWallet with
        addedBalance := ((db.wallets uid).getD zeroWallet).addedBalance - amount },
    ?_, ?_, ?_⟩
  · simp [deductCampaignBudget, deductWalletLeg, hauth, hc, howner, hb1, hb2,
      setCampaign, setWallet]
  · simp [setWallet, setCampaign]
  · simp [setWallet, setCampaign]

/-- C3: if the campaign exists, belongs to `uid`, and has
`remainingBudget < amount`, the campaign compare-and-swap aborts,
`deductCampaignBudget` returns `false` with the store (campaign and
wallet included) completely unchanged, and repeating the call yields the
same failure with no state change. -/
theorem deduct_insufficient_budget_aborts (db : DB) (campaignId : String)
    (amount : Int) (uid : String) (cu : Option String) (camp : Campaign)
    (hauth : authFailed db cu uid false = false)
    (hc : db.campaigns campaignId = some camp)
    (howner : camp.creatorId = uid)
    (hbudget : camp.remainingBudget < amount) :
    deductCampaignBudget db campaignId amount uid cu = Except.ok (db, false)
    ∧ runOp db (LedgerOp.deduct campaignId amount uid cu) = db
    ∧ deductCampaignBudget (runOp db (LedgerOp.deduct campaignId amount uid cu))
        campaignId amount uid cu
        = Except.ok (runOp db (LedgerOp.deduct campaignId amount uid cu), false) := by
  have h1 : deductCampaignBudget db campaignId amount uid cu = Except.ok (db, false) := by
    simp [deductCampaignBudget, hauth, hc, howner, hbudget]
  have h2 : runOp db (LedgerOp.deduct campaignId amount uid cu) = db := by
    simp [runOp, h1]
  exact ⟨h1, h2, by rw [h2]; exact h1⟩

/-- C4: if the campaign compare-and-swap commits
(`remainingBudget ≥ amount`) but the wallet compare-and-swap does not
(`addedBalance < amount`), the engine writes back the post-deduction
`remainingBudget` plus `amount` on the campaign — restoring the
pre-deduction value — leaves the wallet untouched, and returns
`false`. -/
theorem deduct_compensates_on_wallet_abort (db : DB) (campaignId : String)
    (amount : Int) (uid : String) (cu : Option String) (camp : Campaign)
    (hauth : authFailed db cu uid false = false)
    (hc : db.campaigns campaignId = some camp)
    (howner : camp.creatorId = uid)
    (hbudget : amount ≤ camp.remainingBudget)
    (hbal : ((db.wallets uid).getD zeroWallet).addedBalance < amount) :
    ∃ db', deductCampaignBudget db campaignId amount uid cu = Except.ok (db', false)
      ∧ db'.campaigns campaignId =
          some { camp with
                 remainingBudget := (camp.remainingBudget - amount) + amount }
      ∧ (camp.remainingBudget - amount) + amount = camp.remainingBudget
      ∧ db'.campaigns campaignId = some camp
      ∧ db'.wallets = db.wallets := by
  have hb1 : ¬ camp.remainingBudget < amount := not_lt.mpr hbudget
  have heta : { camp with
      remainingBudget := (camp.remainingBudget - amount) + amount } = camp := by
    cases camp
    simp only [Campaign.mk.injEq, and_true, true_and]
    omega
  refine ⟨setCampaign (setCampaign db campaignId
      { camp with remainingBudget := camp.remainingBudget - amount }) campaignId
      { camp with remainingBudget := (camp.remainingBudget - amount) + amount },
    ?_, ?_, by omega, ?_, rfl⟩
  · simp [deductCampaignBudget, deductWalletLeg, hauth, hc, howner, hb1, hbal,
      setCampaign]
  · simp [setCampaign]
  · simp [setCampaign, heta]

/-- C5: from a `pending` work, `approveWorkAndCredit` commits
`status := approved` and credits `reward` onto the worker's
`earnedBalance` exactly once; on the resulting state a second approval
attempt (for any reward and any authorized caller) fails with the
"not in pending status" error and changes nothing, so zero additional
reward is ever credited. -/
theorem approve_work_at_most_once (db : DB) (workId userId campaignId : String)
    (reward : Int) (cu : Option String) (w : WorkRecord)
    (hauth : authFailed db cu userId true = false)
    (hw : db.works userId workId = some w)
    (hpending : w.status = WorkStatus.pending) :
    ∃ db', approveWorkAndCredit db workId userId campaignId reward cu
        = Except.ok (db', true)
      ∧ db'.works userId workId = some { w with status := WorkStatus.approved }
      ∧ ((db'.wallets userId).getD zeroWallet).earnedBalance
          = ((db.wallets userId).getD zeroWallet).earnedBalance + reward
      ∧ ∀ cu2 reward2, authFailed db' cu2 userId true = false →
          approveWorkAndCredit db' workId userId campaignId reward2 cu2
            = Except.error "Work is not in pending status"
          ∧ runOp db' (LedgerOp.approve workId userId campaignId reward2 cu2) = db' := by
  have hbump : ∀ d : DB, bumpApprovedAggregates d userId reward
      = ((bumpApprovedAggregates d userId reward).1, true) := by
    intro d
    unfold bumpApprovedAggregates
    cases d.users userId <;> rfl
  have hmain : approveWorkAndCredit db workId userId campaignId reward cu
      = Except.ok (bumpApprovedAggregates
          (approveCreditLeg
            (setWork db userId workId { w with status := WorkStatus.approved })
            userId reward) userId reward) := by
    simp [approveWorkAndCredit, hauth, hw, hpending]
  refine ⟨(bumpApprovedAggregates
      (approveCreditLeg
        (setWork db userId workId { w with status := WorkStatus.approved })
        userId reward) userId reward).1, ?_, ?_, ?_, ?_⟩
  · rw [hmain, hbump]
  · rw [show ∀ d : DB, (bumpApprovedAggregates d userId reward).1.works = d.works from
      fun d => by unfold bumpApprovedAggregates; cases d.users userId <;> rfl]
    simp [approveCreditLeg, setWallet, setWork]
  · rw [bumpApprovedAggregates_wallets]
    simp [approveCreditLeg, setWallet, setWork]
  · intro cu2 reward2 hauth2
    have hw2 : (bumpApprovedAggregates
        (approveCreditLeg
          (setWork db userId workId { w with status := WorkStatus.approved })
          userId reward) userId reward).1.works userId workId
        = some { w with status := WorkStatus.approved } := by
      rw [show ∀ d : DB, (bumpApprovedAggregates d userId reward).1.works = d.works from
        fun d => by unfold bumpApprovedAggregates; cases d.users userId <;> rfl]
      simp [approveCreditLeg, setWallet, setWork]
    have herr : approveWorkAndCredit (bumpApprovedAggregates
        (approveCreditLeg
          (setWork db userId workId { w with status := WorkStatus.approved })
          userId reward) userId reward).1 workId userId campaignId reward2 cu2
        = Except.error "Work is not in pending status" := by
      simp [approveWorkAndCredit, hauth2, hw2]
    exact ⟨herr, by simp [runOp, herr]⟩

/-- C6: approving a pending add-money request always commits the wallet
compare-and-swap (no abort precondition) with
`addedBalance := addedBalance + amount` and
`pendingAddMoney := max 0 (pendingAddMoney - amount)`, and the call
returns `true`. -/
theorem process_add_money_commits (db : DB) (requestId userId : String)
    (amount : Int) (cu : Option String) (req : MoneyRequest)
    (hauth : authFailed db cu userId true = false)
    (hreq : db.addMoneyRequests requestId = some req)
    (hpending : req.status = ReqStatus.pending) :
    ∃ db', processMoneyRequest db requestId ReqType.addMoney userId amount
        Resolution.approved cu = Except.ok (db', true)
      ∧ db'.wallets userId =
          some { (db.wallets userId).getD zeroWallet with
                 addedBalance := ((db.wallets userId).getD zeroWallet).addedBalance + amount
                 pendingAddMoney :=
                   max 0 (((db.wallets userId).getD zeroWallet).pendingAddMoney - amount) }
      ∧ db'.addMoneyRequests requestId = some { req with status := ReqStatus.approved } := by
  refine ⟨addMoneyLeg
      (setRequest db ReqType.addMoney requestId { req with status := ReqStatus.approved })
      userId amount, ?_, ?_, ?_⟩
  · simp [processMoneyRequest, hauth, hreq, hpending]
  · simp [addMoneyLeg, setWallet, setRequest]
  · simp [addMoneyLeg, setWallet, setRequest]

/-- C7: approving a pending withdrawal request with
`amount > earnedBalance` makes the wallet compare-and-swap abort: the
request status is reverted to `pending` by a compensating write, the
wallet is left unchanged, and the call returns `false`; with
`earnedBalance ≥ amount` it instead commits
`earnedBalance -= amount`, `totalWithdrawn += amount` and returns
`true`. -/
theorem process_withdrawal_spec (db : DB) (requestId userId : String)
    (amount : Int) (cu : Option String) (req : MoneyRequest)
    (hauth : authFailed db cu userId true = false)
    (hreq : db.withdrawalRequests requestId = some req)
    (hpending : req.status = ReqStatus.pending) :
    (((db.wallets userId).getD zeroWallet).earnedBalance < amount →
      ∃ db', processMoneyRequest db requestId ReqType.withdrawal userId amount
          Resolution.approved cu = Except.ok (db', false)
        ∧ db'.wallets = db.wallets
        ∧ db'.withdrawalRequests requestId = some req)
    ∧ (amount ≤ ((db.wallets userId).getD zeroWallet).earnedBalance →
      ∃ db', processMoneyRequest db requestId ReqType.withdrawal userId amount
          Resolution.approved cu = Except.ok (db', true)
        ∧ db'.wallets userId =
            some { (db.wallets userId).getD zeroWallet with
                   earnedBalance :=
                     ((db.wallets userId).getD zeroWallet).earnedBalance - amount
                   totalWithdrawn :=
                     ((db.wallets userId).getD zeroWallet).totalWithdrawn + amount }) := by
  have hreta : { req with status := ReqStatus.pending } = req := by
    cases req
    simp only [MoneyRequest.mk.injEq, true_and]
    exact hpending.symm
  constructor
  · intro hbal
    refine ⟨setRequest
        (setRequest db ReqType.withdrawal requestId { req with status := ReqStatus.approved })
        ReqType.withdrawal requestId { req with status := ReqStatus.pending }, ?_, rfl, ?_⟩
    · simp [processMoneyRequest, withdrawalLeg, hauth, hreq, hpending, hbal, setRequest]
    · simp [setRequest, hreta]
  · intro hbal
    have hb2 : ¬ ((db.wallets userId).getD zeroWallet).earnedBalance < amount :=
      not_lt.mpr hbal
    refine ⟨bumpWithdrawAggregate
        (setWallet
          (setRequest db ReqType.withdrawal requestId
            { req with status := ReqStatus.approved })
          userId
          { (db.wallets userId).getD zeroWallet with
            earnedBalance := ((db.wallets userId).getD zeroWallet).earnedBalance - amount
            totalWithdrawn :=
              ((db.wallets userId).getD zeroWallet).totalWithdrawn + amount })
        userId amount, ?_, ?_⟩
    · simp [processMoneyRequest, withdrawalLeg, hauth, hreq, hpending, hb2, setRequest,
        setWallet]
    · rw [bumpWithdrawAggregate_wallets]
      simp [setWallet, setRequest]

/-- C8: `createTransactionAndAdjustWallet` factors as the record append
followed by the clamping wallet compare-and-swap: the intermediate state
has the transaction record appended under a generated id while the
wallet is still untouched, the wallet step adds each named delta and
clamps all four fields at zero, the record survives in the final state
(even when the wallet update is a logical no-op), and neither write
undoes the other. -/
theorem create_transaction_ordering (db : DB) (uid : String) (txn : TxRecord)
    (wu : WalletDelta) (cu : Option String)
    (hauth : authFailed db cu uid false = false) :
    createTransactionAndAdjustWallet db uid txn wu cu
        = Except.ok (walletAdjustCas (appendTransaction db uid txn) uid wu)
      ∧ (appendTransaction db uid txn).wallets = db.wallets
      ∧ (appendTransaction db uid txn).transactions uid = db.transactions uid ++ [txn]
      ∧ (walletAdjustCas (appendTransaction db uid txn) uid wu).transactions
          = (appendTransaction db uid txn).transactions
      ∧ (walletAdjustCas (appendTransaction db uid txn) uid wu).wallets uid
          = some (clampWallet (addWalletDelta ((db.wallets uid).getD zeroWallet) wu)) := by
  refine ⟨?_, rfl, ?_, rfl, ?_⟩
  · simp [createTransactionAndAdjustWallet, hauth]
  · simp [appendTransaction]
  · simp [walletAdjustCas, setWallet, appendTransaction]

/-- C10: with the acting-user id omitted (`none`), no authorization
check is performed and every Ledger Engine entry point produces exactly
the result (value and state) it produces for a fully authorized caller
`c` — the outcome is independent of the authorization state when the
caller id is absent. -/
theorem omitted_auth_equivalence (db : DB) (c uid : String) :
    (verifyUserAuthorization db c uid false = true →
      (∀ f, updateWalletBalance db uid f none = updateWalletBalance db uid f (some c))
      ∧ (∀ txn wu, createTransactionAndAdjustWallet db uid txn wu none
            = createTransactionAndAdjustWallet db uid txn wu (some c))
      ∧ (∀ campaignId amount, deductCampaignBudget db campaignId amount uid none
            = deductCampaignBudget db campaignId amount uid (some c)))
    ∧ (verifyUserAuthorization db c uid true = true →
      (∀ workId campaignId reward,
          approveWorkAndCredit db workId uid campaignId reward none
            = approveWorkAndCredit db workId uid campaignId reward (some c))
      ∧ (∀ requestId ty amount res,
          processMoneyRequest db requestId ty uid amount res none
            = processMoneyRequest db requestId ty uid amount res (some c))) := by
  constructor
  · intro hv
    have h1 : authFailed db (some c) uid false = false := by
      simp [authFailed, hv]
    have h0 : authFailed db none uid false = false := rfl
    exact ⟨fun f => by simp only [updateWalletBalance, h0, h1],
      fun txn wu => by simp only [createTransactionAndAdjustWallet, h0, h1],
      fun campaignId amount => by simp only [deductCampaignBudget, h0, h1]⟩
  · intro hv
    have h1 : authFailed db (some c) uid true = false := by
      simp [authFailed, hv]
    have h0 : authFailed db none uid true = false := rfl
    exact ⟨fun workId campaignId reward => by
        simp only [approveWorkAndCredit, h0, h1],
      fun requestId ty amount res => by
        simp only [processMoneyRequest, h0, h1]⟩

/-- C1 (amended): starting from any store whose wallets are all
non-negative (in particular the all-zero wallet), every sequence of
Ledger Engine operations keeps all four wallet fields ≥ 0, provided
`approveWorkAndCredit` rewards and `processMoneyRequest` amounts are
non-negative and every `updateWalletBalance` update function preserves
non-negativity. Clamping to zero is applied only by
`createTransactionAndAdjustWallet`; `updateWalletBalance` commits its
update function's result without clamping, and the guarded operations
rely on abort preconditions instead. -/
theorem wallet_nonneg_invariant (db : DB) (ops : List LedgerOp)
    (ha : AllWalletsNonneg db) (hg : ∀ op ∈ ops, GoodOp op) :
    AllWalletsNonneg (runOps db ops) :=
  runOps_nonneg ha hg

/-- C1 counterexample: starting from an all-zero wallet, a single
`updateWalletBalance` whose update function returns `earnedBalance = -1`
commits that negative snapshot unchanged (no clamp is applied at this
write), and `approveWorkAndCredit` with reward `-5` commits
`earnedBalance = -5`; both violate the claimed always-non-negative,
clamped-at-every-write invariant. -/
theorem wallet_nonneg_counterexample :
    (runOp dbC1 (LedgerOp.updateWallet "u1"
        (fun _ => some { earnedBalance := some (-1) }) none)).wallets "u1"
      = some { zeroWallet with earnedBalance := -1 }
    ∧ (runOp dbC1 (LedgerOp.approve "w1" "u1" "c1" (-5) none)).wallets "u1"
      = some { zeroWallet with earnedBalance := -5 }
    ∧ ¬ WalletNonneg { zeroWallet with earnedBalance := -1 }
    ∧ ¬ WalletNonneg { zeroWallet with earnedBalance := -5 } := by
  refine ⟨by decide, by decide, by decide, by decide⟩

/-- Witness for C1: the invariant theorem applied to the all-zero store
and one clamping `createTransactionAndAdjustWallet` call. -/
theorem wallet_nonneg_invariant_witness :
    AllWalletsNonneg dbC1
    ∧ AllWalletsNonneg (runOps dbC1
        [LedgerOp.createTx "u1" txA { earnedBalance := some 25 } none]) := by
  have hbase : AllWalletsNonneg dbC1 := by
    intro uid w h
    simp only [dbC1] at h
    by_cases he : uid = "u1"
    · rw [if_pos he] at h
      injection h with h2
      exact h2 ▸ zeroWallet_nonneg
    · rw [if_neg he] at h
      exact absurd h (by simp)
  refine ⟨hbase, wallet_nonneg_invariant dbC1 _ hbase ?_⟩
  intro op hop
  simp only [List.mem_singleton] at hop
  subst hop
  exact trivial

/-- Witness for C2 (Scenario B): campaign budget 1000, deduction 500,
wallet `addedBalance` 800 — final budget 500, final `addedBalance` 300,
result `true`. -/
theorem deduct_sufficient_commits_witness :
    (campB.remainingBudget - 500 = 500 ∧ walB.addedBalance - 500 = 300)
    ∧ ∃ db', deductCampaignBudget dbB "c1" 500 "u1" none = Except.ok (db', true)
      ∧ db'.campaigns "c1" =
          some { campB with remainingBudget := campB.remainingBudget - 500 }
      ∧ db'.wallets "u1" =
          some { (dbB.wallets "u1").getD zeroWallet with
                 addedBalance := ((dbB.wallets "u1").getD zeroWallet).addedBalance - 500 } :=
  ⟨by decide,
   deduct_sufficient_commits dbB "c1" 500 "u1" none campB rfl (by decide) rfl
     (by decide) (by decide)⟩

/-- Witness for C3 (Scenario C): deducting 1500 against budget 1000
aborts with everything unchanged, twice. -/
theorem deduct_insufficient_budget_aborts_witness :
    campB.remainingBudget < 1500
    ∧ (deductCampaignBudget dbB "c1" 1500 "u1" none = Except.ok (dbB, false)
       ∧ runOp dbB (LedgerOp.deduct "c1" 1500 "u1" none) = dbB
       ∧ deductCampaignBudget (runOp dbB (LedgerOp.deduct "c1" 1500 "u1" none))
           "c1" 1500 "u1" none
           = Except.ok (runOp dbB (LedgerOp.deduct "c1" 1500 "u1" none), false)) :=
  ⟨by decide,
   deduct_insufficient_budget_aborts dbB "c1" 1500 "u1" none campB rfl (by decide)
     rfl (by decide)⟩

/-- Witness for C4: deducting 900 commits on the campaign (1000 ≥ 900)
but aborts on the wallet (800 < 900); the compensating write restores
the campaign and the call returns `false`. -/
theorem deduct_compensates_on_wallet_abort_witness :
    (900 ≤ campB.remainingBudget ∧ walB.addedBalance < 900)
    ∧ ∃ db', deductCampaignBudget dbB "c1" 900 "u1" none = Except.ok (db', false)
      ∧ db'.campaigns "c1" =
          some { campB with remainingBudget := (campB.remainingBudget - 900) + 900 }
      ∧ (campB.remainingBudget - 900) + 900 = campB.remainingBudget
      ∧ db'.campaigns "c1" = some campB
      ∧ db'.wallets = dbB.wallets :=
  ⟨by decide,
   deduct_compensates_on_wallet_abort dbB "c1" 900 "u1" none campB rfl (by decide)
     rfl (by decide) (by decide)⟩

/-- Witness for C5: approving pending work `w5` once succeeds and
credits 100; the second attempt on the resulting state fails with no
state change. -/
theorem approve_work_at_most_once_witness :
    ∃ db', approveWorkAndCredit dbP "w5" "u5" "c5" 100 none = Except.ok (db', true)
      ∧ db'.works "u5" "w5" = some { workP with status := WorkStatus.approved }
      ∧ ((db'.wallets "u5").getD zeroWallet).earnedBalance
          = ((dbP.wallets "u5").getD zeroWallet).earnedBalance + 100
      ∧ ∀ cu2 reward2, authFailed db' cu2 "u5" true = false →
          approveWorkAndCredit db' "w5" "u5" "c5" reward2 cu2
            = Except.error "Work is not in pending status"
          ∧ runOp db' (LedgerOp.approve "w5" "u5" "c5" reward2 cu2) = db' :=
  approve_work_at_most_once dbP "w5" "u5" "c5" 100 none workP rfl (by decide) rfl

/-- Witness for C6 (Scenario E): amount 500 against
`{added: 200, pending: 50}` yields `{added: 700, pending: 0}` and
returns `true`. -/
theorem process_add_money_commits_witness :
    (walE.addedBalance + 500 = 700 ∧ max 0 (walE.pendingAddMoney - 500) = 0)
    ∧ ∃ db', processMoneyRequest dbE "r6" ReqType.addMoney "u6" 500
        Resolution.approved none = Except.ok (db', true)
      ∧ db'.wallets "u6" =
          some { (dbE.wallets "u6").getD zeroWallet with
                 addedBalance := ((dbE.wallets "u6").getD zeroWallet).addedBalance + 500
                 pendingAddMoney :=
                   max 0 (((dbE.wallets "u6").getD zeroWallet).pendingAddMoney - 500) }
      ∧ db'.addMoneyRequests "r6" = some { reqE with status := ReqStatus.approved } :=
  ⟨by decide,
   process_add_money_commits dbE "r6" "u6" 500 none reqE rfl (by decide) rfl⟩

/-- Witness for C7 (Scenario D): withdrawal of 500 against
`earnedBalance` 200 aborts, the request reverts to `pending`, the
wallet is unchanged and the call returns `false`. -/
theorem process_withdrawal_spec_witness :
    walD.earnedBalance < 500
    ∧ ∃ db', processMoneyRequest dbD "r7" ReqType.withdrawal "u7" 500
        Resolution.approved none = Except.ok (db', false)
      ∧ db'.wallets = dbD.wallets
      ∧ db'.withdrawalRequests "r7" = some reqD :=
  ⟨by decide,
   (process_withdrawal_spec dbD "r7" "u7" 500 none reqD rfl (by decide) rfl).1
     (by decide)⟩

/-- Witness for C8: the record is appended first and survives even
though the wallet delta `-50` clamps back to the all-zero wallet (a
logical no-op on the wallet). -/
theorem create_transaction_ordering_witness :
    clampWallet (addWalletDelta zeroWallet wuW8) = zeroWallet
    ∧ (createTransactionAndAdjustWallet dbW8 "u8" txW wuW8 none
        = Except.ok (walletAdjustCas (appendTransaction dbW8 "u8" txW) "u8" wuW8)
      ∧ (appendTransaction dbW8 "u8" txW).wallets = dbW8.wallets
      ∧ (appendTransaction dbW8 "u8" txW).transactions "u8"
          = dbW8.transactions "u8" ++ [txW]
      ∧ (walletAdjustCas (appendTransaction dbW8 "u8" txW) "u8" wuW8).transactions
          = (appendTransaction dbW8 "u8" txW).transactions
      ∧ (walletAdjustCas (appendTransaction dbW8 "u8" txW) "u8" wuW8).wallets "u8"
          = some (clampWallet (addWalletDelta ((dbW8.wallets "u8").getD zeroWallet)
              wuW8))) :=
  ⟨by decide, create_transaction_ordering dbW8 "u8" txW wuW8 none rfl⟩

/-- C9 (amended): a not-`pending` status on the primary resource (work
or money request), detected by the pre-CAS read, makes the operation
throw a typed error with nothing mutated and no compensation performed;
a precondition failure detected at the primary resource's
compare-and-swap (insufficient campaign budget) instead short-circuits
and returns the boolean `false`, also with nothing mutated and no
compensation. -/
theorem primary_precondition_short_circuit :
    (∀ db wid uid cid reward cu (w : WorkRecord),
        authFailed db cu uid true = false →
        db.works uid wid = some w → w.status ≠ WorkStatus.pending →
        approveWorkAndCredit db wid uid cid reward cu
          = Except.error "Work is not in pending status"
        ∧ runOp db (LedgerOp.approve wid uid cid reward cu) = db)
    ∧ (∀ db rid uid amount res cu (req : MoneyRequest),
        authFailed db cu uid true = false →
        db.addMoneyRequests rid = some req → req.status ≠ ReqStatus.pending →
        processMoneyRequest db rid ReqType.addMoney uid amount res cu
          = Except.error "Request is not in pending status"
        ∧ runOp db (LedgerOp.processReq rid ReqType.addMoney uid amount res cu) = db)
    ∧ (∀ db rid uid amount res cu (req : MoneyRequest),
        authFailed db cu uid true = false →
        db.withdrawalRequests rid = some req → req.status ≠ ReqStatus.pending →
        processMoneyRequest db rid ReqType.withdrawal uid amount res cu
          = Except.error "Request is not in pending status"
        ∧ runOp db (LedgerOp.processReq rid ReqType.withdrawal uid amount res cu) = db)
    ∧ (∀ db cid amount uid cu (camp : Campaign),
        authFailed db cu uid false = false →
        db.campaigns cid = some camp → camp.creatorId = uid →
        camp.remainingBudget < amount →
        deductCampaignBudget db cid amount uid cu = Except.ok (db, false)
        ∧ runOp db (LedgerOp.deduct cid amount uid cu) = db) := by
  refine ⟨?_, ?_, ?_, ?_⟩
  · intro db wid uid cid reward cu w hauth hw hst
    have herr : approveWorkAndCredit db wid uid cid reward cu
        = Except.error "Work is not in pending status" := by
      simp [approveWorkAndCredit, hauth, hw, hst]
    exact ⟨herr, by simp [runOp, herr]⟩
  · intro db rid uid amount res cu req hauth hreq hst
    have herr : processMoneyRequest db rid ReqType.addMoney uid amount res cu
        = Except.error "Request is not in pending status" := by
      simp [processMoneyRequest, hauth, hreq, hst]
    exact ⟨herr, by simp [runOp, herr]⟩
  · intro db rid uid amount res cu req hauth hreq hst
    have herr : processMoneyRequest db rid ReqType.withdrawal uid amount res cu
        = Except.error "Request is not in pending status" := by
      simp [processMoneyRequest, hauth, hreq, hst]
    exact ⟨herr, by simp [runOp, herr]⟩
  · intro db cid amount uid cu camp hauth hc howner hbudget
    have h1 : deductCampaignBudget db cid amount uid cu = Except.ok (db, false) := by
      simp [deductCampaignBudget, hauth, hc, howner, hbudget]
    exact ⟨h1, by simp [runOp, h1]⟩

/-- C9 counterexample: an approval attempt on a work whose status is
`approved`, and a processing attempt on a request whose status is
`approved`, both end in a thrown error (`Except.error`) — not in the
boolean `false` the claim asserts for not-`pending` primary-resource
precondition failures. -/
theorem primary_precondition_counterexample :
    approveWorkAndCredit dbC9 "w9" "u9" "c9" 10 none
      = Except.error "Work is not in pending status"
    ∧ processMoneyRequest dbC9 "r9" ReqType.addMoney "u9" 100 Resolution.approved none
      = Except.error "Request is not in pending status" := by
  constructor <;> rfl

/-- Witness for C9 (amended): the throw branch at a concrete approved
work, and the CAS-abort branch at a concrete over-budget deduction. -/
theorem primary_precondition_short_circuit_witness :
    (approveWorkAndCredit dbC9 "w9" "u9" "c9" 10 none
        = Except.error "Work is not in pending status"
      ∧ runOp dbC9 (LedgerOp.approve "w9" "u9" "c9" 10 none) = dbC9)
    ∧ (deductCampaignBudget dbB "c1" 1500 "u1" none = Except.ok (dbB, false)
      ∧ runOp dbB (LedgerOp.deduct "c1" 1500 "u1" none) = dbB) :=
  ⟨primary_precondition_short_circuit.1 dbC9 "w9" "u9" "c9" 10 none workApprovedC9
     rfl (by decide) (by decide),
   primary_precondition_short_circuit.2.2.2 dbB "c1" 1500 "u1" none campB
     rfl (by decide) rfl (by decide)⟩

/-- Witness for C10: with no acting id, `updateWalletBalance` and
`approveWorkAndCredit` coincide with their fully authorized admin-`a`
counterparts on a concrete store. -/
theorem omitted_auth_equivalence_witness :
    (updateWalletBalance dbAuth "u" (fun _ => none) none
       = updateWalletBalance dbAuth "u" (fun _ => none) (some "a"))
    ∧ (approveWorkAndCredit dbAuth "w" "u" "c" 5 none
       = approveWorkAndCredit dbAuth "w" "u" "c" 5 (some "a")) :=
  ⟨((omitted_auth_equivalence dbAuth "a" "u").1 (by decide)).1 (fun _ => none),
   ((omitted_auth_equivalence dbAuth "a" "u").2 (by decide)).1 "w" "c" 5⟩

end Byamn
